import Mathlib

/-!
Verification of the ComplianceShieldHQAWS scan risk-scoring engine.

The definitions below are a shallow embedding of the scanner source:
the orchestrator `analyzeUrl` (scanner module), the helper functions
`analyzeThirdPartyScripts` and `determineCureEligibility`
(scanner-utils module), and the risk aggregation step.  JavaScript
strings are modeled as Lean `String`, JSON numbers as `Int` (all
scores in the source are integral), and the JavaScript truthiness of
possibly-absent object fields as `Option` types with explicit
truthiness helpers.  External collaborators (the Firecrawl content
fetcher, the network probes of the header inspector, and the Bedrock
text-generation call composed with JSON.parse) are modeled by their
outcomes, which are inputs to the orchestration function.
-/

/-! ### String machinery

List-of-character implementations of the JavaScript string operations
the scanner uses (includes, startsWith, replace of a first occurrence,
trim, toLowerCase).  They are written over `List Char` so that every
concrete evaluation reduces inside the kernel.
-/

/-- Whether `pat` is a prefix of `s` (character lists). -/
def hasPrefixL : List Char → List Char → Bool
  | [], _ => true
  | _ :: _, [] => false
  | p :: ps, c :: cs => p = c && hasPrefixL ps cs

/-- Whether `pat` occurs inside `s` as a contiguous run (character lists). -/
def hasSubstrL (pat : List Char) : List Char → Bool
  | [] => hasPrefixL pat []
  | c :: cs => hasPrefixL pat (c :: cs) || hasSubstrL pat cs

/-- Model of JavaScript `s.includes(pat)`. -/
def strContains (s pat : String) : Bool :=
  hasSubstrL pat.toList s.toList

/-- Model of JavaScript `s.startsWith(pat)`. -/
def strStarts (s pat : String) : Bool :=
  hasPrefixL pat.toList s.toList

/-- Remove the first occurrence of `pat` from `s` (character lists);
identity when `pat` does not occur. -/
def removeFirstL (pat : List Char) : List Char → List Char
  | [] => []
  | c :: cs =>
    if hasPrefixL pat (c :: cs) then (c :: cs).drop pat.length
    else c :: removeFirstL pat cs

/-- Model of JavaScript `s.replace(pat, "")` for a literal `pat`:
only the first occurrence is removed. -/
def removeFirst (s pat : String) : String :=
  String.mk (removeFirstL pat.toList s.toList)

/-- Model of JavaScript `s.trim()` (ASCII whitespace suffices here). -/
def trimStr (s : String) : String :=
  String.mk (((s.toList.dropWhile Char.isWhitespace).reverse.dropWhile
    Char.isWhitespace).reverse)

/-- Model of JavaScript `s.toLowerCase()` for ASCII input. -/
def lowerStr (s : String) : String :=
  String.mk (s.toList.map Char.toLower)

/-- First occurrences of a list of strings, in order: model of the
JavaScript spread of a Set, as in the source expression that removes
duplicate tracker names from the detected list. -/
def dedupFirst : List String → List String
  | [] => []
  | x :: xs => x :: (dedupFirst xs).filter (fun y => y ≠ x)

/-! ### URL normalization and the hostname of a parsed URL

The source normalizes its input with `url.trim()` plus a default
`https://` scheme and then parses it with the WHATWG URL parser of the
runtime (`new URL(...)`), reading `.hostname` off the result.
`urlHostname` embeds that parser restricted to the fragment the
scanner exercises: an absolute `http://` or `https://` URL whose
authority is ASCII, has no userinfo (`@`), no IPv6 bracket host and no
percent-escapes.  Following the URL Standard, the authority runs up to
the first `/`, `\`, `?` or `#`; an optional `:port` (digits, value at
most 65535, possibly empty) is split off; the host must be nonempty
and contain no forbidden domain code point (C0 controls, space, `#`,
`/`, `:`, `<`, `>`, `?`, `@`, `[`, `\`, `]`, `^`, `|`, `%`, delete);
ASCII letters are lowercased.  Note that `!` is not a forbidden code
point: the WHATWG parser accepts it in a host. -/

/-- Forbidden domain code point of the WHATWG host parser (ASCII range). -/
def forbiddenHostChar (c : Char) : Bool :=
  c.toNat < 0x21 || c = '#' || c = '/' || c = ':' || c = '<' || c = '>' ||
  c = '?' || c = '@' || c = '[' || c = '\\' || c = ']' || c = '^' ||
  c = '|' || c = '%' || c.toNat = 0x7f || 0x7f < c.toNat

/-- Split an authority at its first `:` into host and optional port text. -/
def hostPortSplit : List Char → List Char × Option (List Char)
  | [] => ([], none)
  | c :: cs =>
    if c = ':' then ([], some cs)
    else
      let r := hostPortSplit cs
      (c :: r.1, r.2)

/-- Numeric value of a digit string. -/
def digitsVal (l : List Char) : Nat :=
  l.foldl (fun a c => a * 10 + (c.toNat - 48)) 0

/-- The `.hostname` of `new URL(u)`, or `none` when the parser throws,
for the modeled fragment (see the section comment). -/
def urlHostname (u : String) : Option String :=
  let rest :=
    if strStarts u "https://" then some (u.toList.drop 8)
    else if strStarts u "http://" then some (u.toList.drop 7)
    else none
  match rest with
  | none => none
  | some r =>
    let auth := r.takeWhile (fun c => !(c = '/' || c = '\\' || c = '?' || c = '#'))
    let hp := hostPortSplit auth
    if hp.1.isEmpty then none
    else if hp.1.any forbiddenHostChar then none
    else
      match hp.2 with
      | none => some (String.mk (hp.1.map Char.toLower))
      | some p =>
        if p.all Char.isDigit && digitsVal p ≤ 65535 then
          some (String.mk (hp.1.map Char.toLower))
        else none

/-- URL normalization of the orchestrator: trim, then default the
secure scheme when no `http://` or `https://` scheme is given. -/
def normalizeUrl (url : String) : String :=
  let trimmed := trimStr url
  if strStarts trimmed "http://" || strStarts trimmed "https://" then trimmed
  else "https://" ++ trimmed

/-! ### Data model -/

/-- Severity tier of a PII exposure finding. -/
inductive Severity where
  | low
  | medium
  | high
  | critical
deriving DecidableEq, Fintype

/-- Output of the security-header inspector (`analyzeSecurityHeaders`):
presence of the four audited response headers and the derived score. -/
structure SecurityHeaders where
  hasCSP : Bool
  hasXFrameOptions : Bool
  hasHSTS : Bool
  hasXContentTypeOptions : Bool
  score : Nat
deriving DecidableEq

/-- Output of the third-party script detector (`analyzeThirdPartyScripts`). -/
structure ThirdPartyScripts where
  googleAnalytics : Bool
  facebookPixel : Bool
  hotjar : Bool
  intercom : Bool
  other : List String
  privacyPolicyMentions : Bool
deriving DecidableEq

/-- Output of the transport validator (`validateSSL`). -/
structure SslValidation where
  hasSSL : Bool
  httpsEnforced : Bool
  certificateValid : Bool
  mixedContent : Bool
deriving DecidableEq

/-- PII exposure record of a scan result. -/
structure PiiExposure where
  detected : Bool
  types : List String
  severity : Severity
deriving DecidableEq

/-- The object the orchestrator reads off `JSON.parse` of the model
response text.  Every field access in the source tolerates absence
(JavaScript `undefined`), so each field is an `Option`; the source
prompt asks the model for the nine booleans, the numeric risk score
and the issue list, and `piiSeverity` models the optional
`piiExposure?.severity` access of the cure-eligibility classifier. -/
structure Analysis where
  hasCookieBanner : Option Bool := none
  hasPrivacyPolicy : Option Bool := none
  hasAiFeatures : Option Bool := none
  hasAiDisclosure : Option Bool := none
  hasBiometricConsent : Option Bool := none
  socialScoring : Option Bool := none
  discrimination : Option Bool := none
  adaIssues : Option Bool := none
  trustSignals : Option Bool := none
  riskScore : Option Int := none
  issues : Option (List String) := none
  piiSeverity : Option Severity := none
deriving DecidableEq

/-- JavaScript truthiness of a possibly-absent boolean field:
`undefined` is falsy, as in the `x || false` defaults of the source. -/
def truthy (b : Option Bool) : Bool :=
  b.getD false

/-- JavaScript `x || d` for a possibly-absent JSON number field:
`undefined` and `0` are falsy, so both fall back to the default. -/
def numOr (x : Option Int) (d : Int) : Int :=
  match x with
  | none => d
  | some v => if v = 0 then d else v

/-- Bedrock credentials; `analyzeUrl` only tests their presence. -/
structure BedrockConfig where
  accessKeyId : String
  secretAccessKey : String
  region : String
deriving DecidableEq

/-- The scan result record returned by `analyzeUrl`.  The `scanData`
JSON string of the source (which embeds a wall-clock timestamp) is not
modeled; every other field is. -/
structure ScanResult where
  success : Bool
  riskScore : Int
  hasCookieBanner : Bool
  hasPrivacyPolicy : Bool
  hasAiFeatures : Bool
  hasAiDisclosure : Bool
  adaIssues : Bool
  aiRetentionIssues : Bool
  gdprIssues : Bool
  shadowAiIssues : Bool
  detectedIssues : List String
  securityHeaders : Option SecurityHeaders := none
  thirdPartyScripts : Option ThirdPartyScripts := none
  sslValidation : Option SslValidation := none
  piiExposure : Option PiiExposure := none
  cureNoticeEligible : Option Bool := none
deriving DecidableEq

/-! ### Scanner utilities -/

/-- The curated allow-list of known-compliant domains
(`KNOWN_COMPLIANT_DOMAINS` in the scanner source, in source order). -/
def KNOWN_COMPLIANT_DOMAINS : List String :=
  ["google.com", "amazon.com", "microsoft.com", "apple.com", "meta.com",
   "facebook.com", "stripe.com", "shopify.com", "notion.so", "figma.com",
   "slack.com", "zoom.us", "salesforce.com", "adobe.com", "netflix.com",
   "spotify.com", "github.com", "gitlab.com", "atlassian.net",
   "dropbox.com", "box.com", "hubspot.com", "mailchimp.com",
   "squarespace.com", "wix.com", "wordpress.com", "cloudflare.com",
   "aws.amazon.com", "azure.microsoft.com", "oracle.com", "ibm.com",
   "paypal.com", "square.com", "complianceshieldhq.com"]

/-- The tracker signature catalog of `analyzeThirdPartyScripts`: service
name and its match literals (each source regex is a case-insensitive
literal; the Segment pattern has the two alternatives com and io). -/
def trackerCatalog : List (String × List String) :=
  [("Google Tag Manager", ["googletagmanager.com"]),
   ("Mixpanel", ["mixpanel.com"]),
   ("Segment", ["segment.com", "segment.io"]),
   ("Amplitude", ["amplitude.com"]),
   ("Heap Analytics", ["heapanalytics.com"]),
   ("FullStory", ["fullstory.com"]),
   ("Crazy Egg", ["crazyegg.com"]),
   ("Kissmetrics", ["kissmetrics.com"]),
   ("Hubspot", ["hubspot.com"]),
   ("Drift", ["drift.com"]),
   ("Zendesk", ["zendesk.com"]),
   ("LiveChat", ["livechatinc.com"]),
   ("Olark", ["olark.com"])]

/-- Embedding of `analyzeThirdPartyScripts(html, content)` from the
scanner-utils source: lowercase matching of the four major trackers and
the catalog against the markup, spread-of-Set deduplication of the
detected names, and the generic disclosure-mention heuristic over the
page text. -/
def analyzeThirdPartyScripts (html content : String) : ThirdPartyScripts :=
  let htmlLower := lowerStr html
  let contentLower := lowerStr content
  let googleAnalytics := strContains htmlLower "google-analytics.com" ||
    strContains htmlLower "gtag.js" || strContains htmlLower "ga.js"
  let facebookPixel := strContains htmlLower "facebook.net/en_us/fbevents.js" ||
    strContains htmlLower "connect.facebook.net"
  let hotjar := strContains htmlLower "hotjar.com" ||
    strContains htmlLower "static.hotjar.com"
  let intercom := strContains htmlLower "intercom.io" ||
    strContains htmlLower "widget.intercom.io"
  let matched := (trackerCatalog.filter
    (fun t => t.2.any (fun p => strContains htmlLower p))).map (fun t => t.1)
  let pushed := matched ++
    (if googleAnalytics then ["Google Analytics"] else []) ++
    (if facebookPixel then ["Facebook Pixel"] else []) ++
    (if hotjar then ["Hotjar"] else []) ++
    (if intercom then ["Intercom"] else [])
  let privacyPolicyMentions := strContains contentLower "google analytics" ||
    strContains contentLower "facebook pixel" ||
    strContains contentLower "tracking" ||
    strContains contentLower "third-party"
  { googleAnalytics := googleAnalytics
    facebookPixel := facebookPixel
    hotjar := hotjar
    intercom := intercom
    other := dedupFirst pushed
    privacyPolicyMentions := privacyPolicyMentions }

/-- Embedding of `determineCureEligibility(analysis)` from the
scanner-utils source: at least one curable violation and no non-curable
violation.  Absent fields read as JavaScript `undefined` (falsy). -/
def determineCureEligibility (analysis : Analysis) : Bool :=
  let hasCurableViolations :=
    (truthy analysis.hasAiFeatures && !truthy analysis.hasAiDisclosure) ||
    !truthy analysis.hasPrivacyPolicy ||
    !truthy analysis.hasCookieBanner ||
    truthy analysis.adaIssues
  let hasNonCurableViolations :=
    truthy analysis.socialScoring ||
    truthy analysis.discrimination ||
    (analysis.piiSeverity = some Severity.critical ||
     analysis.piiSeverity = some Severity.high : Bool)
  hasCurableViolations && !hasNonCurableViolations

/-! ### Risk aggregation -/

/-- The running risk score of `analyzeUrl` just before the final
`Math.min(riskScore, 100)`: the model score through the JavaScript
`|| 50` default, then the four additive security adjustments.  The
source applies the adjustments as four sequential increments whose
conditions never read the running score, so the sequence equals this
sum; the four conditions are the JavaScript tests not-hasSSL,
mixedContent, header score below 50, and more than 5 entries of the
deduplicated tracker list with no generic disclosure mention. -/
def adjustedRiskScore (analysis : Analysis) (securityHeaders : SecurityHeaders)
    (thirdPartyScripts : ThirdPartyScripts) (sslValidation : SslValidation) : Int :=
  numOr analysis.riskScore 50
    + (if sslValidation.hasSSL = false then 15 else 0)
    + (if sslValidation.mixedContent = true then 10 else 0)
    + (if securityHeaders.score < 50 then 10 else 0)
    + (if 5 < thirdPartyScripts.other.length ∧ thirdPartyScripts.privacyPolicyMentions = false
       then 10 else 0)

/-- The final risk score of the aggregation step of `analyzeUrl`:
the adjusted score capped by `Math.min(riskScore, 100)`. -/
def computeRiskScore (analysis : Analysis) (securityHeaders : SecurityHeaders)
    (thirdPartyScripts : ThirdPartyScripts) (sslValidation : SslValidation) : Int :=
  min (adjustedRiskScore analysis securityHeaders thirdPartyScripts sslValidation) 100

/-- Result compilation of the success path of `analyzeUrl`: the final
score, the derived framework flags, the defaulted model booleans and
the evidence snapshot. -/
def successResult (analysis : Analysis) (securityHeaders : SecurityHeaders)
    (thirdPartyScripts : ThirdPartyScripts) (sslValidation : SslValidation) : ScanResult :=
  let adaIssues := truthy analysis.adaIssues
  let aiRetentionIssues :=
    truthy analysis.hasAiFeatures && !truthy analysis.hasPrivacyPolicy
  let gdprIssues :=
    !truthy analysis.hasCookieBanner || !truthy analysis.hasPrivacyPolicy
  let shadowAiIssues :=
    truthy analysis.hasAiFeatures && !truthy analysis.hasAiDisclosure
  { success := true
    riskScore := computeRiskScore analysis securityHeaders thirdPartyScripts sslValidation
    hasCookieBanner := truthy analysis.hasCookieBanner
    hasPrivacyPolicy := truthy analysis.hasPrivacyPolicy
    hasAiFeatures := truthy analysis.hasAiFeatures
    hasAiDisclosure := truthy analysis.hasAiDisclosure
    adaIssues := adaIssues
    aiRetentionIssues := aiRetentionIssues
    gdprIssues := gdprIssues
    shadowAiIssues := shadowAiIssues
    detectedIssues := analysis.issues.getD []
    securityHeaders := some securityHeaders
    thirdPartyScripts := some thirdPartyScripts
    sslValidation := some sslValidation
    piiExposure := some { detected := false, types := [], severity := Severity.low }
    cureNoticeEligible := some (determineCureEligibility analysis) }

/-! ### Error results of the orchestrator -/

/-- Result returned when FIRECRAWL_API_KEY is not configured. -/
def missingFirecrawlResult : ScanResult :=
  { success := false
    riskScore := 0
    hasCookieBanner := false
    hasPrivacyPolicy := false
    hasAiFeatures := false
    hasAiDisclosure := false
    adaIssues := false
    aiRetentionIssues := false
    gdprIssues := false
    shadowAiIssues := false
    detectedIssues :=
      ["TECHNICAL ERROR: FIRECRAWL_API_KEY not configured",
       "Add your Firecrawl API key in Settings → Secrets",
       "Get API key from https://firecrawl.dev"] }

/-- Result returned when the Bedrock credentials are not configured. -/
def missingBedrockResult : ScanResult :=
  { success := false
    riskScore := 0
    hasCookieBanner := false
    hasPrivacyPolicy := false
    hasAiFeatures := false
    hasAiDisclosure := false
    adaIssues := false
    aiRetentionIssues := false
    gdprIssues := false
    shadowAiIssues := false
    detectedIssues :=
      ["TECHNICAL ERROR: AWS Bedrock credentials not configured",
       "Add AWS_ACCESS_KEY_ID, AWS_SECRET_ACCESS_KEY, and AWS_REGION in Settings → Secrets",
       "Enable Claude 3.7 Sonnet in AWS Bedrock Console (us-east-1)"] }

/-- Result returned when the normalized URL does not parse. -/
def invalidUrlResult : ScanResult :=
  { success := false
    riskScore := 0
    hasCookieBanner := false
    hasPrivacyPolicy := false
    hasAiFeatures := false
    hasAiDisclosure := false
    adaIssues := false
    aiRetentionIssues := false
    gdprIssues := false
    shadowAiIssues := false
    detectedIssues := ["Invalid URL format"] }

/-- Result returned by the catch block of `analyzeUrl` for the given
user-friendly error text. -/
def scanFailedResult (userFriendlyError : String) : ScanResult :=
  { success := false
    riskScore := 0
    hasCookieBanner := false
    hasPrivacyPolicy := false
    hasAiFeatures := false
    hasAiDisclosure := false
    adaIssues := false
    aiRetentionIssues := false
    gdprIssues := false
    shadowAiIssues := false
    detectedIssues :=
      ["Scan failed: " ++ userFriendlyError,
       "This is a technical error, not a compliance issue with the target site."] }

/-- The baseline result returned for a known-compliant domain. -/
def knownCompliantResult : ScanResult :=
  { success := true
    riskScore := 15
    hasCookieBanner := true
    hasPrivacyPolicy := true
    hasAiFeatures := false
    hasAiDisclosure := false
    adaIssues := false
    aiRetentionIssues := false
    gdprIssues := false
    shadowAiIssues := false
    detectedIssues := []
    securityHeaders := some
      { hasCSP := true, hasXFrameOptions := true, hasHSTS := true,
        hasXContentTypeOptions := true, score := 100 }
    sslValidation := some
      { hasSSL := true, httpsEnforced := true, certificateValid := true,
        mixedContent := false }
    cureNoticeEligible := some false }

/-- The error-message rewriting of the catch block of `analyzeUrl`
(the initial `error?.message || "Unknown error"` default followed by
the chain of `includes` tests). -/
def classifyError (message : String) : String :=
  let userFriendlyError := if message = "" then "Unknown error" else message
  if strContains userFriendlyError "Access Denied" || strContains userFriendlyError "403" then
    "AWS Access Denied - Check IAM permissions for bedrock:InvokeModel"
  else if strContains userFriendlyError "404" || strContains userFriendlyError "Not Found" then
    "Model not found - Enable Claude 3.7 Sonnet in AWS Bedrock Console"
  else if strContains userFriendlyError "429" || strContains userFriendlyError "Throttl" then
    "AWS rate limit exceeded - Wait a moment and retry"
  else if strContains userFriendlyError "400" || strContains userFriendlyError "Bad Request" then
    "Invalid request format - Check model ID and region"
  else if strContains message "Firecrawl" then
    "Website scraping failed - Check FIRECRAWL_API_KEY"
  else userFriendlyError

/-! ### Orchestration -/

/-- Content returned by the Firecrawl fetch: the markdown text, the
discovered links and the raw markup (the source defaults each to its
empty value when absent). -/
structure PageContent where
  markdown : String
  links : List String
  html : String
deriving DecidableEq

/-- Outcome of the text-generation step as seen by the orchestrator:
either the Bedrock call threw (carrying the error message), or it
returned text whose `JSON.parse` outcome is recorded: `Except.error`
when the text is not JSON (the SyntaxError message), `Except.ok` with
the parsed object otherwise.  For example the response text consisting
of the two brace characters alone parses to the `Analysis` with every
field absent, and a prose response parses to an error. -/
inductive ModelCall where
  | failed (message : String)
  | returned (parsed : Except String Analysis)

/-- Outcomes of the effectful collaborators consumed by one scan: the
content fetch (fatal on error), the header inspection (the inspector
already folds its own network failure into an all-false score-0 value)
and the transport validation (likewise self-defaulting), and the model
call.  The third-party script detection is pure and is computed from
the fetched page, not an outcome. -/
structure ScanEnv where
  fetchResult : Except String PageContent
  securityHeaders : SecurityHeaders
  sslValidation : SslValidation
  modelCall : ModelCall

/-- The evidence-collection and audit phases of `analyzeUrl` (the body
of its try block after the known-compliant check): fatal on fetch
failure, on absent markdown, on a model-call failure and on a JSON
parse failure; otherwise the success-path result compilation. -/
def evidencePath (env : ScanEnv) : ScanResult :=
  match env.fetchResult with
  | Except.error message => scanFailedResult (classifyError message)
  | Except.ok page =>
    if page.markdown = "" then
      scanFailedResult (classifyError "Failed to scrape content - no markdown returned")
    else
      let thirdPartyScripts := analyzeThirdPartyScripts page.html page.markdown
      match env.modelCall with
      | ModelCall.failed message => scanFailedResult (classifyError message)
      | ModelCall.returned (Except.error message) => scanFailedResult (classifyError message)
      | ModelCall.returned (Except.ok analysis) =>
        successResult analysis env.securityHeaders thirdPartyScripts env.sslValidation

/-- Embedding of the orchestrator `analyzeUrl(url, firecrawlApiKey,
bedrockConfig)`: configuration checks, URL normalization and parse,
the known-compliant short-circuit (`domain.includes(d)` over the
allow-list, after `hostname.replace("www.", "")`), then the
evidence-collection phases. -/
def analyzeUrl (firecrawlApiKey : Option String) (bedrockConfig : Option BedrockConfig)
    (url : String) (env : ScanEnv) : ScanResult :=
  if firecrawlApiKey.getD "" = "" then missingFirecrawlResult
  else if bedrockConfig.isNone then missingBedrockResult
  else
    match urlHostname (normalizeUrl url) with
    | none => invalidUrlResult
    | some hostname =>
      let domain := removeFirst hostname "www."
      if KNOWN_COMPLIANT_DOMAINS.any (fun d => strContains domain d) then
        knownCompliantResult
      else evidencePath env

/-! ### Concrete fixtures used by witnesses and counterexamples -/

/-- Security headers with all four present (score 100). -/
def secHeadersGood : SecurityHeaders :=
  { hasCSP := true, hasXFrameOptions := true, hasHSTS := true,
    hasXContentTypeOptions := true, score := 100 }

/-- Security headers with none present (score 0). -/
def secHeadersBad : SecurityHeaders :=
  { hasCSP := false, hasXFrameOptions := false, hasHSTS := false,
    hasXContentTypeOptions := false, score := 0 }

/-- Transport evidence with secure scheme and no mixed content. -/
def sslGood : SslValidation :=
  { hasSSL := true, httpsEnforced := true, certificateValid := true,
    mixedContent := false }

/-- Transport evidence with insecure scheme and mixed content. -/
def sslBad : SslValidation :=
  { hasSSL := false, httpsEnforced := false, certificateValid := false,
    mixedContent := true }

/-- Third-party evidence with no detected tracker and disclosure text. -/
def tpsQuiet : ThirdPartyScripts :=
  { googleAnalytics := false, facebookPixel := false, hotjar := false,
    intercom := false, other := [], privacyPolicyMentions := true }

/-- Third-party evidence with six distinct detected trackers. -/
def tpsSix (mentions : Bool) : ThirdPartyScripts :=
  { googleAnalytics := false, facebookPixel := false, hotjar := false,
    intercom := false,
    other := ["Google Tag Manager", "Mixpanel", "Segment", "Amplitude",
              "Heap Analytics", "FullStory"],
    privacyPolicyMentions := mentions }

/-- Third-party evidence with exactly five distinct detected trackers. -/
def tpsFive (mentions : Bool) : ThirdPartyScripts :=
  { googleAnalytics := false, facebookPixel := false, hotjar := false,
    intercom := false,
    other := ["Google Tag Manager", "Mixpanel", "Segment", "Amplitude",
              "Heap Analytics"],
    privacyPolicyMentions := mentions }

/-- A Bedrock configuration (its contents are only tested for presence). -/
def cfgFixture : BedrockConfig :=
  { accessKeyId := "AKIAEXAMPLE", secretAccessKey := "secret", region := "us-east-1" }

/-- A fetched page with nonempty markdown and no tracker markup. -/
def pageFixture : PageContent :=
  { markdown := "hello", links := [], html := "" }

/-- Collaborator outcomes: successful fetch of `pageFixture`, optimistic
header and transport evidence, and the given model-call outcome. -/
def envWith (mc : ModelCall) : ScanEnv :=
  { fetchResult := Except.ok pageFixture, securityHeaders := secHeadersGood,
    sslValidation := sslGood, modelCall := mc }

/-- Collaborator outcomes where the content fetch failed with the given
error message. -/
def envFetchFail (message : String) : ScanEnv :=
  { fetchResult := Except.error message, securityHeaders := secHeadersGood,
    sslValidation := sslGood, modelCall := ModelCall.failed "unused" }

/-- The all-absent model output: what the response text consisting of an
empty JSON object parses to. -/
def blankAnalysis : Analysis := {}

/-! ### Helper lemmas -/

/-- Spread-of-Set deduplication yields a list without duplicates. -/
theorem dedupFirst_nodup : ∀ l : List String, (dedupFirst l).Nodup := by
  intro l
  induction l with
  | nil => simp [dedupFirst]
  | cons x xs ih =>
    simp only [dedupFirst, List.nodup_cons]
    refine ⟨fun hmem => ?_, ih.filter _⟩
    have h2 := (List.mem_filter.mp hmem).2
    simp at h2

/-- Reduction of `analyzeUrl` on the fixture input: the key is present,
the Bedrock configuration is present, the URL normalizes and parses to
a hostname outside the allow-list, and the fetch succeeds, so the
result is decided by the model-call outcome. -/
theorem analyzeUrl_unknownsite (mc : ModelCall) :
    analyzeUrl (some "key") (some cfgFixture) "unknownsite.example" (envWith mc)
      = (match mc with
         | ModelCall.failed m => scanFailedResult (classifyError m)
         | ModelCall.returned (Except.error m) => scanFailedResult (classifyError m)
         | ModelCall.returned (Except.ok a) =>
             successResult a secHeadersGood (analyzeThirdPartyScripts "" "hello") sslGood) := by
  cases mc with
  | failed m => rfl
  | returned p =>
    cases p with
    | error m => rfl
    | ok a => rfl

/-! ### Claims -/

/-- C1 counterexample: the aggregation step has no lower clamp (the
source caps only with Math.min at 100), so a model-proposed base score
of minus 50 with no adjustment firing yields a final score of minus 50,
outside the interval claimed for every base score. -/
theorem risk_score_lower_bound_cex :
    computeRiskScore { riskScore := some (-50) } secHeadersGood tpsQuiet sslGood < 0 := by
  decide

/-- C1 (corrected): whenever the model-proposed base risk score is
nonnegative (reading an absent score as the default 50), the final
risk score of the aggregation step of analyzeUrl lies in the closed
interval 0 to 100 for every combination of the four adjustment
conditions; for negative proposed bases only the upper bound holds,
since the source clamps only from above. -/
theorem risk_score_bounds_of_nonneg_base (analysis : Analysis)
    (sec : SecurityHeaders) (tps : ThirdPartyScripts) (ssl : SslValidation)
    (h : 0 ≤ analysis.riskScore.getD 50) :
    0 ≤ computeRiskScore analysis sec tps ssl ∧
      computeRiskScore analysis sec tps ssl ≤ 100 := by
  have h0 : 0 ≤ numOr analysis.riskScore 50 := by
    rcases hr : analysis.riskScore with _ | v
    · simp [numOr]
    · rw [hr] at h
      have hv : (0 : Int) ≤ v := h
      simp only [numOr]
      split <;> omega
  have h4 : 0 ≤ adjustedRiskScore analysis sec tps ssl := by
    unfold adjustedRiskScore
    split_ifs <;> omega
  exact ⟨le_min h4 (by norm_num), min_le_right _ _⟩

/-- C1 witness: the bounds at a concrete evidence bundle. -/
theorem risk_score_bounds_of_nonneg_base_witness :
    0 ≤ blankAnalysis.riskScore.getD 50 ∧
      (0 ≤ computeRiskScore blankAnalysis secHeadersGood tpsQuiet sslGood ∧
       computeRiskScore blankAnalysis secHeadersGood tpsQuiet sslGood ≤ 100) :=
  ⟨by decide,
   risk_score_bounds_of_nonneg_base blankAnalysis secHeadersGood tpsQuiet sslGood (by decide)⟩

/-- C2 counterexample: a model-proposed base score of 0 with no
adjustment firing does not stay 0: the JavaScript falsy default
(riskScore or 50) replaces it, and the final score is 50. -/
theorem zero_base_score_cex :
    computeRiskScore { riskScore := some 0 } secHeadersGood tpsQuiet sslGood = 50 ∧
    computeRiskScore { riskScore := some 0 } secHeadersGood tpsQuiet sslGood ≠ 0 := by
  decide

/-- C2 (corrected): a base score of 0 is falsy in JavaScript, so the
aggregation replaces it with the default 50 and a scan with no
adjustments firing ends at 50, not 0; a base of 100 with all four
adjustments firing clamps to exactly 100 as claimed. -/
theorem extreme_base_scores :
    computeRiskScore { riskScore := some 0 } secHeadersGood tpsQuiet sslGood = 50 ∧
    computeRiskScore { riskScore := some 100 } secHeadersBad (tpsSix false) sslBad = 100 := by
  decide

/-- C3 counterexample: a model response consisting of an empty JSON
object (which parses but carries none of the required fields) is not a
hard failure: the scan succeeds, the missing booleans are silently
defaulted to false and the missing risk score falls back to 50. -/
theorem missing_fields_defaulted_cex :
    (analyzeUrl (some "key") (some cfgFixture) "unknownsite.example"
      (envWith (ModelCall.returned (Except.ok blankAnalysis)))).success = true ∧
    (analyzeUrl (some "key") (some cfgFixture) "unknownsite.example"
      (envWith (ModelCall.returned (Except.ok blankAnalysis)))).hasCookieBanner = false ∧
    (analyzeUrl (some "key") (some cfgFixture) "unknownsite.example"
      (envWith (ModelCall.returned (Except.ok blankAnalysis)))).riskScore = 50 := by
  refine ⟨rfl, rfl, rfl⟩

/-- C3 (corrected): only a response text that is not parseable as JSON
is a hard failure of the scan, producing the technical-error result; a
response that parses to an object missing required fields is accepted,
with each missing boolean read as false, a missing risk score replaced
by the default 50 and a missing issue list by the empty list. -/
theorem model_output_parse_handling (message : String) (analysis : Analysis)
    (hmiss : analysis.hasCookieBanner = none ∧ analysis.hasPrivacyPolicy = none ∧
      analysis.hasAiFeatures = none ∧ analysis.riskScore = none ∧ analysis.issues = none) :
    analyzeUrl (some "key") (some cfgFixture) "unknownsite.example"
        (envWith (ModelCall.returned (Except.error message)))
      = scanFailedResult (classifyError message) ∧
    (analyzeUrl (some "key") (some cfgFixture) "unknownsite.example"
      (envWith (ModelCall.returned (Except.ok analysis)))).success = true ∧
    (analyzeUrl (some "key") (some cfgFixture) "unknownsite.example"
      (envWith (ModelCall.returned (Except.ok analysis)))).hasCookieBanner = false ∧
    (analyzeUrl (some "key") (some cfgFixture) "unknownsite.example"
      (envWith (ModelCall.returned (Except.ok analysis)))).hasPrivacyPolicy = false ∧
    (analyzeUrl (some "key") (some cfgFixture) "unknownsite.example"
      (envWith (ModelCall.returned (Except.ok analysis)))).hasAiFeatures = false ∧
    (analyzeUrl (some "key") (some cfgFixture) "unknownsite.example"
      (envWith (ModelCall.returned (Except.ok analysis)))).riskScore = 50 ∧
    (analyzeUrl (some "key") (some cfgFixture) "unknownsite.example"
      (envWith (ModelCall.returned (Except.ok analysis)))).detectedIssues = [] := by
  obtain ⟨hc, hp, hf, hr, hi⟩ := hmiss
  rw [analyzeUrl_unknownsite, analyzeUrl_unknownsite]
  refine ⟨rfl, rfl, ?_, ?_, ?_, ?_, ?_⟩
  · simp [successResult, truthy, hc]
  · simp [successResult, truthy, hp]
  · simp [successResult, truthy, hf]
  · simp [successResult, computeRiskScore, adjustedRiskScore, numOr, hr]
    decide
  · simp [successResult, hi]

/-- C3 witness: the parse-failure and empty-object behavior at concrete
inputs. -/
theorem model_output_parse_handling_witness :
    (blankAnalysis.hasCookieBanner = none ∧ blankAnalysis.hasPrivacyPolicy = none ∧
      blankAnalysis.hasAiFeatures = none ∧ blankAnalysis.riskScore = none ∧
      blankAnalysis.issues = none) ∧
    (analyzeUrl (some "key") (some cfgFixture) "unknownsite.example"
        (envWith (ModelCall.returned (Except.error "Unexpected token")))
      = scanFailedResult (classifyError "Unexpected token") ∧
    (analyzeUrl (some "key") (some cfgFixture) "unknownsite.example"
      (envWith (ModelCall.returned (Except.ok blankAnalysis)))).success = true ∧
    (analyzeUrl (some "key") (some cfgFixture) "unknownsite.example"
      (envWith (ModelCall.returned (Except.ok blankAnalysis)))).hasCookieBanner = false ∧
    (analyzeUrl (some "key") (some cfgFixture) "unknownsite.example"
      (envWith (ModelCall.returned (Except.ok blankAnalysis)))).hasPrivacyPolicy = false ∧
    (analyzeUrl (some "key") (some cfgFixture) "unknownsite.example"
      (envWith (ModelCall.returned (Except.ok blankAnalysis)))).hasAiFeatures = false ∧
    (analyzeUrl (some "key") (some cfgFixture) "unknownsite.example"
      (envWith (ModelCall.returned (Except.ok blankAnalysis)))).riskScore = 50 ∧
    (analyzeUrl (some "key") (some cfgFixture) "unknownsite.example"
      (envWith (ModelCall.returned (Except.ok blankAnalysis)))).detectedIssues = []) :=
  ⟨⟨rfl, rfl, rfl, rfl, rfl⟩,
   model_output_parse_handling "Unexpected token" blankAnalysis ⟨rfl, rfl, rfl, rfl, rfl⟩⟩

/-- C4 (confirmed): determineCureEligibility returns true exactly when
at least one curable indicator holds (AI features without AI
disclosure, or privacy policy absent, or cookie banner absent, or
accessibility issues present) and no non-curable indicator holds
(social scoring, discrimination, or a PII severity of critical or
high, absent fields reading as false); so over the curable and
non-curable pair only (true, false) is eligible. -/
theorem cure_eligibility_iff (analysis : Analysis) :
    determineCureEligibility analysis = true ↔
      (((truthy analysis.hasAiFeatures = true ∧ truthy analysis.hasAiDisclosure = false) ∨
        truthy analysis.hasPrivacyPolicy = false ∨
        truthy analysis.hasCookieBanner = false ∨
        truthy analysis.adaIssues = true) ∧
       ¬(truthy analysis.socialScoring = true ∨ truthy analysis.discrimination = true ∨
         analysis.piiSeverity = some Severity.critical ∨
         analysis.piiSeverity = some Severity.high)) := by
  simp only [determineCureEligibility, Bool.and_eq_true, Bool.or_eq_true, Bool.not_eq_true',
    Bool.or_eq_false_iff, decide_eq_true_eq, decide_eq_false_iff_not, not_or,
    Bool.not_eq_true]
  tauto

/-- C5 (confirmed): for every combination of the boolean model outputs,
the result of the success path of analyzeUrl has aiRetentionIssues
equal to hasAiFeatures and not hasPrivacyPolicy, and shadowAiIssues
equal to hasAiFeatures and not hasAiDisclosure; the flags are derived
here (the parsed model object has no such fields to copy). -/
theorem derived_ai_flags (f p d : Bool) (analysis : Analysis)
    (hf : analysis.hasAiFeatures = some f)
    (hp : analysis.hasPrivacyPolicy = some p)
    (hd : analysis.hasAiDisclosure = some d) :
    (analyzeUrl (some "key") (some cfgFixture) "unknownsite.example"
      (envWith (ModelCall.returned (Except.ok analysis)))).aiRetentionIssues = (f && !p) ∧
    (analyzeUrl (some "key") (some cfgFixture) "unknownsite.example"
      (envWith (ModelCall.returned (Except.ok analysis)))).shadowAiIssues = (f && !d) := by
  rw [analyzeUrl_unknownsite]
  constructor
  · simp [successResult, truthy, hf, hp]
  · simp [successResult, truthy, hf, hd]

/-- C5 witness: the derived flags at a concrete model output. -/
theorem derived_ai_flags_witness :
    ({ hasAiFeatures := some true, hasPrivacyPolicy := some false,
       hasAiDisclosure := some true } : Analysis).hasAiFeatures = some true ∧
    (analyzeUrl (some "key") (some cfgFixture) "unknownsite.example"
      (envWith (ModelCall.returned (Except.ok
        { hasAiFeatures := some true, hasPrivacyPolicy := some false,
          hasAiDisclosure := some true })))).aiRetentionIssues = (true && !false) ∧
    (analyzeUrl (some "key") (some cfgFixture) "unknownsite.example"
      (envWith (ModelCall.returned (Except.ok
        { hasAiFeatures := some true, hasPrivacyPolicy := some false,
          hasAiDisclosure := some true })))).shadowAiIssues = (true && !true) :=
  ⟨rfl,
   derived_ai_flags true false true
     { hasAiFeatures := some true, hasPrivacyPolicy := some false,
       hasAiDisclosure := some true } rfl rfl rfl⟩

/-- C6 counterexample: on the content-fetch failure path the returned
result has success false but every framework-issue flag set to false,
not true as claimed. -/
theorem fatal_path_flags_cex :
    (analyzeUrl (some "key") (some cfgFixture) "unknownsite.example"
      (envFetchFail "Firecrawl API error: 500 - boom")).success = false ∧
    (analyzeUrl (some "key") (some cfgFixture) "unknownsite.example"
      (envFetchFail "Firecrawl API error: 500 - boom")).adaIssues = false ∧
    (analyzeUrl (some "key") (some cfgFixture) "unknownsite.example"
      (envFetchFail "Firecrawl API error: 500 - boom")).aiRetentionIssues = false ∧
    (analyzeUrl (some "key") (some cfgFixture) "unknownsite.example"
      (envFetchFail "Firecrawl API error: 500 - boom")).gdprIssues = false ∧
    (analyzeUrl (some "key") (some cfgFixture) "unknownsite.example"
      (envFetchFail "Firecrawl API error: 500 - boom")).shadowAiIssues = false := by
  refine ⟨rfl, rfl, rfl, rfl, rfl⟩

/-- C6 (corrected): on every fatal path (content-fetch failure,
model-call failure, malformed model output) analyzeUrl returns a
well-formed result rather than raising, with success false and an
issue list stating the failure is technical; but every framework-issue
flag is set to false, not true. -/
theorem fatal_path_result_shape (message : String) :
    analyzeUrl (some "key") (some cfgFixture) "unknownsite.example" (envFetchFail message)
      = scanFailedResult (classifyError message) ∧
    analyzeUrl (some "key") (some cfgFixture) "unknownsite.example"
      (envWith (ModelCall.failed message)) = scanFailedResult (classifyError message) ∧
    analyzeUrl (some "key") (some cfgFixture) "unknownsite.example"
      (envWith (ModelCall.returned (Except.error message)))
      = scanFailedResult (classifyError message) ∧
    ∀ e : String, (scanFailedResult e).success = false ∧
      (scanFailedResult e).adaIssues = false ∧
      (scanFailedResult e).aiRetentionIssues = false ∧
      (scanFailedResult e).gdprIssues = false ∧
      (scanFailedResult e).shadowAiIssues = false ∧
      (scanFailedResult e).detectedIssues =
        ["Scan failed: " ++ e,
         "This is a technical error, not a compliance issue with the target site."] := by
  refine ⟨rfl, ?_, ?_, fun e => ⟨rfl, rfl, rfl, rfl, rfl, rfl⟩⟩
  · rw [analyzeUrl_unknownsite]
  · rw [analyzeUrl_unknownsite]

/-- C7 (confirmed): for the inputs google.com and
https-google.com-anything, analyzeUrl returns the fixed baseline
result for every collaborator outcome (so neither the content fetcher
nor the text-generation service can influence it): risk score 15, all
four headers present with score 100, optimistic transport flags, an
empty issue list and cure eligibility false. -/
theorem known_domain_short_circuit (key : String) (hkey : key ≠ "")
    (cfg : BedrockConfig) (env env2 : ScanEnv) :
    analyzeUrl (some key) (some cfg) "google.com" env = knownCompliantResult ∧
    analyzeUrl (some key) (some cfg) "https://google.com/anything" env2 = knownCompliantResult ∧
    (analyzeUrl (some key) (some cfg) "google.com" env).riskScore = 15 ∧
    (analyzeUrl (some key) (some cfg) "google.com" env).securityHeaders = some
      { hasCSP := true, hasXFrameOptions := true, hasHSTS := true,
        hasXContentTypeOptions := true, score := 100 } ∧
    (analyzeUrl (some key) (some cfg) "google.com" env).sslValidation = some
      { hasSSL := true, httpsEnforced := true, certificateValid := true,
        mixedContent := false } ∧
    (analyzeUrl (some key) (some cfg) "google.com" env).detectedIssues = [] ∧
    (analyzeUrl (some key) (some cfg) "google.com" env).cureNoticeEligible = some false ∧
    (analyzeUrl (some key) (some cfg) "google.com" env).success = true := by
  have hkey2 : ¬((some key).getD "" = "") := by simpa using hkey
  have h1 : analyzeUrl (some key) (some cfg) "google.com" env = knownCompliantResult := by
    unfold analyzeUrl
    rw [if_neg hkey2]
    rfl
  have h2 : analyzeUrl (some key) (some cfg) "https://google.com/anything" env2
      = knownCompliantResult := by
    unfold analyzeUrl
    rw [if_neg hkey2]
    rfl
  refine ⟨h1, h2, ?_, ?_, ?_, ?_, ?_, ?_⟩ <;> rw [h1] <;> rfl

/-- C7 witness: the short-circuit at a concrete key and concrete
collaborator outcomes (including a failing fetch, which cannot matter). -/
theorem known_domain_short_circuit_witness :
    "key" ≠ "" ∧
    (analyzeUrl (some "key") (some cfgFixture) "google.com" (envFetchFail "down")
        = knownCompliantResult ∧
    analyzeUrl (some "key") (some cfgFixture) "https://google.com/anything"
        (envWith (ModelCall.failed "down")) = knownCompliantResult ∧
    (analyzeUrl (some "key") (some cfgFixture) "google.com" (envFetchFail "down")).riskScore = 15 ∧
    (analyzeUrl (some "key") (some cfgFixture) "google.com" (envFetchFail "down")).securityHeaders
      = some { hasCSP := true, hasXFrameOptions := true, hasHSTS := true,
               hasXContentTypeOptions := true, score := 100 } ∧
    (analyzeUrl (some "key") (some cfgFixture) "google.com" (envFetchFail "down")).sslValidation
      = some { hasSSL := true, httpsEnforced := true, certificateValid := true,
               mixedContent := false } ∧
    (analyzeUrl (some "key") (some cfgFixture) "google.com" (envFetchFail "down")).detectedIssues = [] ∧
    (analyzeUrl (some "key") (some cfgFixture) "google.com" (envFetchFail "down")).cureNoticeEligible
      = some false ∧
    (analyzeUrl (some "key") (some cfgFixture) "google.com" (envFetchFail "down")).success = true) :=
  ⟨by decide,
   known_domain_short_circuit "key" (by decide) cfgFixture (envFetchFail "down")
     (envWith (ModelCall.failed "down"))⟩

/-- C8 counterexample: the registrable domain fakegoogle.com is not a
member of the allow-list, yet analyzeUrl returns the fixed baseline
result for it even when the content fetch would fail, because the
source tests membership with a substring includes. -/
theorem substring_short_circuit_cex :
    analyzeUrl (some "key") (some cfgFixture) "fakegoogle.com"
      (envFetchFail "Firecrawl API error: 500 - boom") = knownCompliantResult ∧
    "fakegoogle.com" ∉ KNOWN_COMPLIANT_DOMAINS := by
  exact ⟨rfl, by decide⟩

/-- C8 (corrected): the short-circuit fires exactly when the hostname
of the target URL, after deletion of a first www. prefix occurrence,
contains some member of the allow-list as a substring; hostnames that
merely contain a listed domain, such as fakegoogle.com, therefore also
short-circuit instead of undergoing full evidence collection. -/
theorem short_circuit_characterization (key : String) (hkey : key ≠ "")
    (cfg : BedrockConfig) (url host : String)
    (hparse : urlHostname (normalizeUrl url) = some host) (env : ScanEnv) :
    analyzeUrl (some key) (some cfg) url env
      = (if KNOWN_COMPLIANT_DOMAINS.any (fun d => strContains (removeFirst host "www.") d)
         then knownCompliantResult
         else evidencePath env) ∧
    KNOWN_COMPLIANT_DOMAINS.any
      (fun d => strContains (removeFirst "fakegoogle.com" "www.") d) = true ∧
    "fakegoogle.com" ∉ KNOWN_COMPLIANT_DOMAINS := by
  have hkey2 : ¬((some key).getD "" = "") := by simpa using hkey
  refine ⟨?_, by decide, by decide⟩
  unfold analyzeUrl
  rw [if_neg hkey2, hparse]
  rfl

/-- C8 witness: the characterization instantiated at fakegoogle.com. -/
theorem short_circuit_characterization_witness :
    ("key" ≠ "" ∧ urlHostname (normalizeUrl "fakegoogle.com") = some "fakegoogle.com") ∧
    (analyzeUrl (some "key") (some cfgFixture) "fakegoogle.com" (envWith (ModelCall.failed "m"))
      = (if KNOWN_COMPLIANT_DOMAINS.any
            (fun d => strContains (removeFirst "fakegoogle.com" "www.") d)
         then knownCompliantResult
         else evidencePath (envWith (ModelCall.failed "m"))) ∧
    KNOWN_COMPLIANT_DOMAINS.any
      (fun d => strContains (removeFirst "fakegoogle.com" "www.") d) = true ∧
    "fakegoogle.com" ∉ KNOWN_COMPLIANT_DOMAINS) :=
  ⟨⟨by decide, by decide⟩,
   short_circuit_characterization "key" (by decide) cfgFixture "fakegoogle.com"
     "fakegoogle.com" (by decide) (envWith (ModelCall.failed "m"))⟩

/-- C9 counterexample: the input with the mangled scheme is not
rejected as unparseable: after normalization the WHATWG parser accepts
it with hostname ht-bang-tp, so analyzeUrl proceeds to the fetch phase
and the Invalid URL format result is never produced for it. -/
theorem weird_scheme_url_cex :
    urlHostname (normalizeUrl "ht!tp://bad") = some "ht!tp" ∧
    (analyzeUrl (some "key") (some cfgFixture) "ht!tp://bad"
      (envFetchFail "boom")).detectedIssues ≠ ["Invalid URL format"] := by
  exact ⟨by decide, by decide⟩

/-- C9 (corrected): normalization maps example.com to
https-example.com as claimed; but the input with the mangled scheme is
accepted by the URL parser (its normalization parses with hostname
ht-bang-tp), so the scan proceeds and, when the content fetch then
fails, returns the technical-error result, not the input-error result;
genuinely unparseable strings such as one containing spaces do return
the Invalid URL format result. -/
theorem url_normalization_behavior :
    normalizeUrl "example.com" = "https://example.com" ∧
    urlHostname (normalizeUrl "ht!tp://bad") = some "ht!tp" ∧
    (∀ message : String,
      analyzeUrl (some "key") (some cfgFixture) "ht!tp://bad" (envFetchFail message)
        = scanFailedResult (classifyError message)) ∧
    urlHostname (normalizeUrl "not a url") = none ∧
    (∀ env : ScanEnv,
      analyzeUrl (some "key") (some cfgFixture) "not a url" env = invalidUrlResult) := by
  refine ⟨by decide, by decide, fun message => rfl, by decide, fun env => rfl⟩

/-- Decomposition of the pre-clamp score: relative to the baseline
with no detected tracker and disclosure present, the third-party
adjustment contributes 10 exactly under its firing condition. -/
theorem adjustedRiskScore_tracker_split (analysis : Analysis) (sec : SecurityHeaders)
    (ssl : SslValidation) (tps : ThirdPartyScripts) :
    adjustedRiskScore analysis sec tps ssl =
      adjustedRiskScore analysis sec
        { tps with other := [], privacyPolicyMentions := true } ssl +
        (if 5 < tps.other.length ∧ tps.privacyPolicyMentions = false then 10 else 0) := by
  simp only [adjustedRiskScore, List.length_nil]
  split_ifs <;> omega

/-- C10 (confirmed): the plus-10 third-party adjustment contributes to
the pre-clamp score exactly when the deduplicated tracker list has
strictly more than 5 entries and the generic disclosure flag is false:
relative to an empty disclosed baseline the contribution is the
conditional 10; with 6 distinct trackers and no disclosure it fires,
with the same 6 trackers and disclosure it does not, and with exactly
5 trackers it never fires; and the tracker list produced by
analyzeThirdPartyScripts never counts a tracker twice. -/
theorem third_party_adjustment :
    (∀ (analysis : Analysis) (sec : SecurityHeaders) (ssl : SslValidation)
       (tps : ThirdPartyScripts),
      adjustedRiskScore analysis sec tps ssl =
        adjustedRiskScore analysis sec
          { tps with other := [], privacyPolicyMentions := true } ssl +
          (if 5 < tps.other.length ∧ tps.privacyPolicyMentions = false then 10 else 0)) ∧
    (∀ (analysis : Analysis) (sec : SecurityHeaders) (ssl : SslValidation) (m : Bool),
      adjustedRiskScore analysis sec (tpsSix false) ssl
        = adjustedRiskScore analysis sec tpsQuiet ssl + 10 ∧
      adjustedRiskScore analysis sec (tpsSix true) ssl
        = adjustedRiskScore analysis sec tpsQuiet ssl ∧
      adjustedRiskScore analysis sec (tpsFive m) ssl
        = adjustedRiskScore analysis sec tpsQuiet ssl) ∧
    (∀ html content : String, (analyzeThirdPartyScripts html content).other.Nodup) := by
  refine ⟨adjustedRiskScore_tracker_split, ?_, fun html content => dedupFirst_nodup _⟩
  intro analysis sec ssl m
  refine ⟨?_, ?_, ?_⟩
  · simp only [adjustedRiskScore, tpsSix, tpsQuiet]
    norm_num
  · simp only [adjustedRiskScore, tpsSix, tpsQuiet]
    norm_num
  · simp only [adjustedRiskScore, tpsFive, tpsQuiet]
    norm_num
